import Mathlib

/-!
Verification of the YouTube workout-plan extractor (src/demo.py).

The program is a single linear Streamlit pipeline: resolve a video id
from a URL, fetch a transcript, send it to a completion endpoint, parse
the reply as JSON, render and export it.  We embed that pipeline
shallowly: the outcomes of the external collaborators (pytube id
extraction, the transcript provider, the completion endpoint, json.loads)
are explicit inputs, and the user-visible Streamlit calls are recorded in
an ordered event trace.
-/

/-- Python values as produced by json.loads: null, booleans, integers,
strings, lists, and (insertion-ordered) dicts.  Floats do not occur in
any property considered here and are omitted. -/
inductive PyVal where
  | none : PyVal
  | bool : Bool → PyVal
  | int : Int → PyVal
  | str : String → PyVal
  | list : List PyVal → PyVal
  | dict : List (String × PyVal) → PyVal

/-- Python truthiness (`if x:`) on such a value: None, False, 0, empty
string, empty list and empty dict are falsy. -/
def PyVal.truthy : PyVal → Bool
  | .none => false
  | .bool b => b
  | .int n => n != 0
  | .str s => s != ""
  | .list l => !l.isEmpty
  | .dict d => !d.isEmpty

/-- Spaces used by json.dumps indentation: `indentPad n` is n spaces. -/
def indentPad : Nat → String
  | 0 => ""
  | n + 1 => " " ++ indentPad n

/-- JSON string escaping as json.dumps performs it on the characters that
occur here (backslash, double quote, newline, carriage return, tab);
other control characters do not occur in the verified properties. -/
def jsonEscapeChar (c : Char) : String :=
  if c = '\\' then "\\\\"
  else if c = '"' then "\\\""
  else if c = '\n' then "\\n"
  else if c = '\r' then "\\r"
  else if c = '\t' then "\\t"
  else String.singleton c

/-- Escape a whole string for JSON output. -/
def jsonEscape (s : String) : String :=
  String.join (s.toList.map jsonEscapeChar)

mutual

/-- Model of json.dumps(v, indent=2): serialization of a Python value at
the given current indentation column. -/
def dumpVal : Nat → PyVal → String
  | _, .none => "null"
  | _, .bool true => "true"
  | _, .bool false => "false"
  | _, .int n => toString n
  | _, .str s => "\"" ++ jsonEscape s ++ "\""
  | _, .list [] => "[]"
  | lvl, .list (v :: rest) =>
      "[\n" ++ dumpItems (lvl + 2) v rest ++ "\n" ++ indentPad lvl ++ "]"
  | _, .dict [] => "\x7b\x7d"
  | lvl, .dict ((k, v) :: rest) =>
      "\x7b\n" ++ dumpPairs (lvl + 2) k v rest ++ "\n" ++ indentPad lvl ++ "\x7d"
termination_by _ v => sizeOf v

/-- Comma-and-newline separated list items, each at the given indent. -/
def dumpItems : Nat → PyVal → List PyVal → String
  | lvl, v, [] => indentPad lvl ++ dumpVal lvl v
  | lvl, v, w :: rest =>
      indentPad lvl ++ dumpVal lvl v ++ ",\n" ++ dumpItems lvl w rest
termination_by _ v rest => 1 + sizeOf v + sizeOf rest

/-- Comma-and-newline separated dict entries, each at the given indent. -/
def dumpPairs : Nat → String → PyVal → List (String × PyVal) → String
  | lvl, k, v, [] =>
      indentPad lvl ++ "\"" ++ jsonEscape k ++ "\": " ++ dumpVal lvl v
  | lvl, k, v, (k2, v2) :: rest =>
      indentPad lvl ++ "\"" ++ jsonEscape k ++ "\": " ++ dumpVal lvl v ++
        ",\n" ++ dumpPairs lvl k2 v2 rest
termination_by _ _ v rest => 1 + sizeOf v + sizeOf rest

end

/-- One timed transcript segment, as returned by the transcript provider.
The source only ever reads the "text" entry of each segment dict; the
timing entries are never consulted and are omitted. -/
structure TranscriptSegment where
  text : String
deriving DecidableEq

/-- One caption track as listed by YouTubeTranscriptApi.list_transcripts:
a human-readable language name (for example "English"), an IETF language
code (for example "en"), a generated-captions flag, and the segments its
fetch() returns. -/
structure TranscriptTrack where
  language : String
  language_code : String
  is_generated : Bool
  segments : List TranscriptSegment
deriving DecidableEq

/-- The message object inside one completion choice; its content may be
missing (None). -/
structure ChatMessage where
  content : Option String
deriving DecidableEq

/-- One completion choice of the endpoint response. -/
structure Choice where
  message : ChatMessage
deriving DecidableEq

/-- The completion endpoint response: a list of choices. -/
structure ApiResponse where
  choices : List Choice
deriving DecidableEq

/-- One chat message sent to the completion endpoint. -/
structure Message where
  role : String
  content : String
deriving DecidableEq

/-- Python exceptions that can escape the embedded code uncaught:
IndexError from response.choices[0] on an empty choice list, TypeError
from json.loads(None), ValueError from the pandas constructor. -/
inductive PyException where
  | indexError
  | typeError
  | valueError
deriving DecidableEq

/-- The ambient outcomes of the extraction stage collaborators: the
configured PERPLEXITY_API_KEY, the result of the completion request
(error means the client construction or the create call raised), and the
behaviour of json.loads on the returned text (error means
json.JSONDecodeError). -/
structure Env where
  apiKey : Option String
  completionResult : Except String ApiResponse
  jsonLoads : String → Except Unit PyVal

/-- A pandas DataFrame as far as this program observes one: column
labels and rows of cells. -/
structure Frame where
  columns : List String
  rows : List (List PyVal)

/-- User-visible Streamlit calls and outbound network interactions, in
the order the handler performs them.  Static page chrome (title, footer,
sidebar) carries no logic and is not part of the handler trace. -/
inductive UIEvent where
  | error (msg : String)
  | warning (msg : String)
  | subheader (title : String)
  | markdown (html : String)
  | dataframe (df : Frame)
  | downloadCSV (data : String)
  | downloadJSON (data : String)
  | transcriptListCall
  | transcriptFetchCall
  | completionCall (messages : List Message)

/-- Does the event display an error message (st.error)? -/
def UIEvent.isError : UIEvent → Bool
  | .error _ => true
  | _ => false

/-- Does the event display a warning message (st.warning)? -/
def UIEvent.isWarning : UIEvent → Bool
  | .warning _ => true
  | _ => false

/-- Does the event offer a download artifact (st.download_button)? -/
def UIEvent.isDownload : UIEvent → Bool
  | .downloadCSV _ => true
  | .downloadJSON _ => true
  | _ => false

/-- Is the event a request to the completion endpoint? -/
def UIEvent.isCompletionCall : UIEvent → Bool
  | .completionCall _ => true
  | _ => false

/-- Number of st.error messages in a trace. -/
def countErrors (l : List UIEvent) : Nat := l.countP UIEvent.isError

/-- Number of st.warning messages in a trace. -/
def countWarnings (l : List UIEvent) : Nat := l.countP UIEvent.isWarning

/-- Number of download artifacts offered in a trace. -/
def countDownloads (l : List UIEvent) : Nat := l.countP UIEvent.isDownload

/-- Number of completion endpoint requests in a trace. -/
def countCompletionCalls (l : List UIEvent) : Nat :=
  l.countP UIEvent.isCompletionCall

/-- Python truthiness of the configured key string: None and the empty
string are falsy. -/
def str_opt_truthy : Option String → Bool
  | Option.none => false
  | some s => s != ""

/-- Embedding of extract_video_id: the pytube extract.video_id outcome is
an input; an exception becomes an st.error and a None result. -/
def extract_video_id (result : Except String String) :
    List UIEvent × Option String :=
  match result with
  | .ok v => ([], some v)
  | .error e => ([.error ("Error extracting video ID: " ++ e)], Option.none)

/-- Model of TranscriptList.find_transcript: walk the requested language
codes in order and return the first listed track whose language_code
matches; when none matches the library raises NoTranscriptFound,
rendered here as Option.none. -/
def find_transcript (tracks : List TranscriptTrack) (codes : List String) :
    Option TranscriptTrack :=
  codes.findSome? (fun c => tracks.find? (fun t => t.language_code == c))

/-- Embedding of get_transcript.  The available_transcripts dict is keyed
by the language attribute of each track (the display name), so the "en"
membership test is against display names.  An exception anywhere in the
body (listing failure, NoTranscriptFound, the IndexError of indexing an
empty track list) is caught and becomes an st.error and a None result. -/
def get_transcript (listing : Except String (List TranscriptTrack)) :
    List UIEvent × Option (List TranscriptSegment) :=
  match listing with
  | .error e =>
      ([.transcriptListCall, .error ("Error getting transcript: " ++ e)],
        Option.none)
  | .ok tracks =>
      if (tracks.map TranscriptTrack.language).contains "en" then
        match find_transcript tracks ["en"] with
        | some t => ([.transcriptListCall, .transcriptFetchCall], some t.segments)
        | Option.none =>
            ([.transcriptListCall,
              .error "Error getting transcript: no transcripts were found for any of the requested language codes"],
              Option.none)
      else
        match tracks with
        | [] =>
            ([.transcriptListCall,
              .error "Error getting transcript: list index out of range"],
              Option.none)
        | t :: _ => ([.transcriptListCall, .transcriptFetchCall], some t.segments)

/-- The fixed system message content of the extraction exchange. -/
def systemContent : String :=
  "You are an assistant that extracts workout details. You will extract information related to exercises, sets, and reps. You will only get information about exercises related to weightlifting or bodyweight exercises."

/-- The prompt template text before the interpolated transcript. -/
def promptHead : String :=
  "\n    Extract workout details (exercise name, sets, reps) from the following transcript:\n    "

/-- The prompt template text after the interpolated transcript. -/
def promptTail : String :=
  "\n\n    Return just the result as a JSON list with this structure:\n    [\n        \x7b\"exercise\": \"Push-ups\", \"sets\": 3, \"reps\": 15\x7d,\n        \x7b\"exercise\": \"Squats\", \"sets\": 4, \"reps\": 12\x7d\n    ]\n    \n    Please do not add anything else, simply return the JSON list. This includes adding markdown formatting.\n    "

/-- The two-message exchange built by extract_workout_perplexity; the
user message embeds the transcript texts joined by single spaces
(the " ".join of the source). -/
def build_messages (transcript : List TranscriptSegment) : List Message :=
  [⟨"system", systemContent⟩,
   ⟨"user",
     promptHead ++
       String.intercalate " " (transcript.map TranscriptSegment.text) ++
       promptTail⟩]

/-- Embedding of extract_workout_perplexity.  The first try block covers
the key check, the client construction and the create call; the second
try around json.loads catches only JSONDecodeError.  The subscript
response.choices[0].message.content sits outside both, so an empty
choice list (IndexError) or a None content (TypeError inside
json.loads) escapes uncaught, rendered as an error outcome. -/
def extract_workout_perplexity (env : Env) (transcript : List TranscriptSegment) :
    List UIEvent × Except PyException PyVal :=
  if transcript.isEmpty then
    ([.warning "No transcript available for this video."], .ok .none)
  else
    let messages := build_messages transcript
    if !str_opt_truthy env.apiKey then
      ([.error "Perplexity API key is missing. Please add it to your .env file."],
        .ok .none)
    else
      match env.completionResult with
      | .error e =>
          ([.completionCall messages,
            .error ("Failed to connect to Perplexity API: " ++ e)], .ok .none)
      | .ok response =>
          match response.choices with
          | [] => ([.completionCall messages], .error .indexError)
          | choice :: _ =>
              match choice.message.content with
              | Option.none => ([.completionCall messages], .error .typeError)
              | some extracted_data =>
                  match env.jsonLoads extracted_data with
                  | .error _ =>
                      ([.completionCall messages,
                        .error "Failed to parse Perplexity response as JSON."],
                        .ok .none)
                  | .ok v => ([.completionCall messages], .ok v)

/-- The fixed markup of embed_youtube_video before the embed URL. -/
def embedHtmlHead : String :=
  "\n    <div style=\"position: relative; padding-bottom: 56.25%; height: 0; overflow: hidden; max-width: 100%; border-radius: 10px;\">\n        <iframe src=\""

/-- The embed URL base of embed_youtube_video. -/
def embedUrlBase : String := "https://www.youtube.com/embed/"

/-- The fixed markup of embed_youtube_video after the interpolated id. -/
def embedHtmlTail : String :=
  "\" \n            style=\"position: absolute; top: 0; left: 0; width: 100%; height: 100%; border: 0;\" \n            allowfullscreen>\n        </iframe>\n    </div>\n    "

/-- Embedding of embed_youtube_video: the fixed-aspect wrapper markup
around an iframe at the standard embed URL for the id. -/
def embed_youtube_video (video_id : String) : String :=
  embedHtmlHead ++ embedUrlBase ++ video_id ++ embedHtmlTail

/-- Does a string force CSV quoting (comma, quote, newline, carriage
return), per the csv module QUOTE_MINIMAL rule pandas uses? -/
def needsQuoting (s : String) : Bool :=
  s.toList.any (fun c => c == ',' || c == '"' || c == '\n' || c == '\r')

/-- CSV field rendering of a string: quoted, with quotes doubled, only
when the content requires it. -/
def csvQuote (s : String) : String :=
  if needsQuoting s then "\"" ++ s.replace "\"" "\"\"" ++ "\"" else s

/-- CSV rendering of one cell as DataFrame.to_csv prints it.  Cells of
container type would be printed via their Python repr; no verified claim
involves them and they are left unmodelled (empty). -/
def cellToCsv : PyVal → String
  | .str s => csvQuote s
  | .int n => toString n
  | .bool true => "True"
  | .bool false => "False"
  | .none => ""
  | .list _ => ""
  | .dict _ => ""

/-- Comma-joined CSV fields of one row. -/
def joinComma : List String → String
  | [] => ""
  | [s] => s
  | s :: rest => s ++ "," ++ joinComma rest

/-- Concatenation of the lines of a rendered CSV body. -/
def concatStrings : List String → String
  | [] => ""
  | s :: rest => s ++ concatStrings rest

/-- Model of workout_df.to_csv(index=False): the comma-joined header
line, then one comma-joined line per row, each line newline-terminated
and with no index column. -/
def to_csv (df : Frame) : String :=
  joinComma (df.columns.map csvQuote) ++ "\n" ++
    concatStrings (df.rows.map (fun row => joinComma (row.map cellToCsv) ++ "\n"))

/-- The keys and values of a record dict, when the value is one. -/
def recordFields : PyVal → Option (List String × List PyVal)
  | .dict kvs => some (kvs.map Prod.fst, kvs.map Prod.snd)
  | _ => Option.none

/-- Model of pd.DataFrame(workout_data) for the list-of-records shape the
program expects: every element a dict with one shared key sequence;
columns are those keys, rows their values in order.  Any other input
shape is modelled as a raised constructor exception — pandas does accept
some of those shapes, but no verified claim depends on such inputs. -/
def pd_DataFrame : PyVal → Except PyException Frame
  | .list [] => .ok ⟨[], []⟩
  | .list (v :: rest) =>
      match recordFields v with
      | Option.none => .error .valueError
      | some (cols, _) =>
          if (v :: rest).all (fun u => ((recordFields u).map Prod.fst) == some cols) then
            .ok ⟨cols,
              (v :: rest).map (fun u => ((recordFields u).map Prod.snd).getD [])⟩
          else .error .valueError
  | _ => .error .valueError

/-- The workout_data branch of the handler: a truthy extraction result is
rendered as a table with download buttons for the CSV and the 2-space
indented JSON of the same data; a falsy one produces the could-not-extract
warning. -/
def renderWorkout (workout_data : PyVal) : List UIEvent × Except PyException Unit :=
  if workout_data.truthy then
    match pd_DataFrame workout_data with
    | .error e => ([.subheader "Extracted Workout Plan"], .error e)
    | .ok df =>
        ([.subheader "Extracted Workout Plan", .dataframe df,
          .downloadCSV (to_csv df), .downloadJSON (dumpVal 0 workout_data)],
          .ok ())
  else
    ([.warning "Could not extract workout plan from this video."], .ok ())

/-- The per-click external world: the typed URL and the outcomes of the
three collaborator interactions. -/
structure World where
  urlInput : String
  videoIdResult : Except String String
  listing : Except String (List TranscriptTrack)
  env : Env

/-- The handler from the transcript fetch onward: a falsy transcript
(None or empty) produces the no-transcript warning; otherwise extraction
runs and its result is rendered. -/
def transcript_and_extract (w : World) : List UIEvent × Except PyException Unit :=
  match get_transcript w.listing with
  | (ev, Option.none) =>
      (ev ++ [.warning "No transcript available for this video."], .ok ())
  | (ev, some transcript) =>
      if transcript.isEmpty then
        (ev ++ [.warning "No transcript available for this video."], .ok ())
      else
        match extract_workout_perplexity w.env transcript with
        | (ev2, .error exc) => (ev ++ ev2, .error exc)
        | (ev2, .ok workout_data) =>
            match renderWorkout workout_data with
            | (ev3, out) => (ev ++ ev2 ++ ev3, out)

/-- The whole button handler: an empty URL warns and stops; a resolution
failure stops after its error; a truthy id renders the Video subheader
and the embedded player markup, then proceeds with transcript fetch,
extraction and rendering. -/
def runPipeline (w : World) : List UIEvent × Except PyException Unit :=
  if w.urlInput == "" then
    ([.warning "Please enter a YouTube URL to process."], .ok ())
  else
    match extract_video_id w.videoIdResult with
    | (ev, Option.none) => (ev, .ok ())
    | (ev, some video_id) =>
        if video_id == "" then (ev, .ok ())
        else
          match transcript_and_extract w with
          | (ev2, out) =>
              (ev ++ [.subheader "Video", .markdown (embed_youtube_video video_id)]
                ++ ev2, out)

/-- One extracted exercise record: exercise name, sets, reps. -/
structure ExerciseRecord where
  exercise : String
  sets : Int
  reps : Int

/-- The record as the parsed JSON dict the model is asked to emit. -/
def ExerciseRecord.toPyVal (r : ExerciseRecord) : PyVal :=
  .dict [("exercise", .str r.exercise), ("sets", .int r.sets), ("reps", .int r.reps)]


/-! ### Helper lemmas -/

lemma countErrors_append (a b : List UIEvent) :
    countErrors (a ++ b) = countErrors a + countErrors b :=
  List.countP_append ..

lemma countWarnings_append (a b : List UIEvent) :
    countWarnings (a ++ b) = countWarnings a + countWarnings b :=
  List.countP_append ..

lemma countDownloads_append (a b : List UIEvent) :
    countDownloads (a ++ b) = countDownloads a + countDownloads b :=
  List.countP_append ..

lemma countCompletionCalls_append (a b : List UIEvent) :
    countCompletionCalls (a ++ b) =
      countCompletionCalls a + countCompletionCalls b :=
  List.countP_append ..

lemma isEmpty_false_of_ne_nil {ts : List TranscriptSegment} (h : ts ≠ []) :
    ts.isEmpty = false := by
  cases ts with
  | nil => exact absurd rfl h
  | cons a l => rfl

lemma runPipeline_resolved (w : World) (vid : String)
    (hurl : w.urlInput ≠ "") (hvid : w.videoIdResult = .ok vid)
    (hvid2 : vid ≠ "") :
    runPipeline w =
      ([.subheader "Video", .markdown (embed_youtube_video vid)] ++
          (transcript_and_extract w).1,
        (transcript_and_extract w).2) := by
  rcases h : transcript_and_extract w with ⟨ev2, out⟩
  simp [runPipeline, extract_video_id, hvid, h, hurl, hvid2]

lemma extract_parse_ok (env : Env) (ts : List TranscriptSegment)
    (body : String) (v : PyVal)
    (hts : ts ≠ []) (hkey : str_opt_truthy env.apiKey = true)
    (hresp : env.completionResult = .ok ⟨[⟨⟨some body⟩⟩]⟩)
    (hparse : env.jsonLoads body = .ok v) :
    extract_workout_perplexity env ts =
      ([.completionCall (build_messages ts)], .ok v) := by
  simp [extract_workout_perplexity, isEmpty_false_of_ne_nil hts, hkey, hresp, hparse]

lemma extract_parse_err (env : Env) (ts : List TranscriptSegment)
    (body : String)
    (hts : ts ≠ []) (hkey : str_opt_truthy env.apiKey = true)
    (hresp : env.completionResult = .ok ⟨[⟨⟨some body⟩⟩]⟩)
    (hparse : env.jsonLoads body = .error ()) :
    extract_workout_perplexity env ts =
      ([.completionCall (build_messages ts),
        .error "Failed to parse Perplexity response as JSON."], .ok PyVal.none) := by
  simp [extract_workout_perplexity, isEmpty_false_of_ne_nil hts, hkey, hresp, hparse]

lemma transcript_and_extract_run (w : World) (ts : List TranscriptSegment)
    (ev2 : List UIEvent) (v : PyVal)
    (htr : get_transcript w.listing =
      ([.transcriptListCall, .transcriptFetchCall], some ts))
    (hts : ts ≠ [])
    (hex : extract_workout_perplexity w.env ts = (ev2, .ok v)) :
    transcript_and_extract w =
      ([.transcriptListCall, .transcriptFetchCall] ++ ev2 ++ (renderWorkout v).1,
        (renderWorkout v).2) := by
  rcases h : renderWorkout v with ⟨ev3, out⟩
  simp [transcript_and_extract, htr, isEmpty_false_of_ne_nil hts, hex, h]

lemma renderWorkout_none :
    renderWorkout PyVal.none =
      ([.warning "Could not extract workout plan from this video."], .ok ()) := rfl

/-! ### Claim theorems -/

/-- The track list exhibiting the English-selection slip: a Spanish track
first in provider enumeration order, an English track second.  As the
real provider reports them, the language attribute carries the display
name ("Spanish", "English") and language_code the IETF code. -/
def c1_tracks : List TranscriptTrack :=
  [⟨"Spanish", "es", false, [⟨"hola"⟩]⟩,
   ⟨"English", "en", false, [⟨"hello"⟩]⟩]

/-- C1: the claim says get_transcript returns the English track whenever
one exists, regardless of its position.  On this track list the English
track (language_code "en", display name "English") is present and
find_transcript would locate it, yet get_transcript returns the Spanish
first track: the membership test compares "en" against the dict keyed by
display names, so it fails and the fallback branch runs.  This
contradicts the source comment "Try to get English transcript first". -/
theorem c1_english_track_not_selected :
    (get_transcript (.ok c1_tracks)).2 = some [⟨"hola"⟩] ∧
    find_transcript c1_tracks ["en"] =
      some ⟨"English", "en", false, [⟨"hello"⟩]⟩ ∧
    ([⟨"hola"⟩] : List TranscriptSegment) ≠ [⟨"hello"⟩] := by
  refine ⟨rfl, rfl, by decide⟩

/-- The extraction environment of the C3 counterexample: key configured,
completion call succeeds but the response carries zero choices. -/
def c3Env : Env := ⟨some "key", .ok ⟨[]⟩, fun _ => .ok .none⟩

/-- The transcript of the C3 counterexample. -/
def c3Transcript : List TranscriptSegment := [⟨"three sets of squats"⟩]

/-- C3 counterexample: with a successful completion call whose response
has no choice, extract_workout_perplexity does not catch the failure and
return None — the subscript response.choices[0] sits outside the try
block, so the IndexError escapes. -/
theorem c3_empty_choices_uncaught :
    (extract_workout_perplexity c3Env c3Transcript).2 =
      .error PyException.indexError ∧
    (extract_workout_perplexity c3Env c3Transcript).2 ≠ .ok PyVal.none := by
  exact ⟨rfl, fun h => nomatch h⟩

/-- C3 amended: every exception raised by the completion call itself (or
the client construction) is caught and collapsed into the one generic
message, with None returned; but a response lacking a completion choice
with message content escapes uncaught, as the counterexample shows. -/
theorem c3_completion_call_exceptions_caught (env : Env)
    (t : List TranscriptSegment) (e : String)
    (ht : t ≠ [])
    (hkey : str_opt_truthy env.apiKey = true)
    (hc : env.completionResult = .error e) :
    extract_workout_perplexity env t =
      ([.completionCall (build_messages t),
        .error ("Failed to connect to Perplexity API: " ++ e)], .ok PyVal.none) := by
  simp [extract_workout_perplexity, isEmpty_false_of_ne_nil ht, hkey, hc]

/-- C3 amended, witnessed at a concrete failing completion call. -/
theorem c3_completion_call_exceptions_caught_witness :
    extract_workout_perplexity ⟨some "key", .error "boom", fun _ => .ok .none⟩
        [⟨"pushups"⟩] =
      ([.completionCall (build_messages [⟨"pushups"⟩]),
        .error ("Failed to connect to Perplexity API: " ++ "boom")],
        .ok PyVal.none) :=
  c3_completion_call_exceptions_caught
    ⟨some "key", .error "boom", fun _ => .ok .none⟩ [⟨"pushups"⟩] "boom"
    (by decide) rfl rfl

/-- C5: with a non-empty transcript and a missing (or empty) configured
key, extract_workout_perplexity emits exactly the key-missing error,
returns None, and issues no request to the completion endpoint. -/
theorem c5_missing_key_stops_before_call (env : Env)
    (t : List TranscriptSegment)
    (ht : t ≠ [])
    (hkey : str_opt_truthy env.apiKey = false) :
    extract_workout_perplexity env t =
      ([.error "Perplexity API key is missing. Please add it to your .env file."],
        .ok PyVal.none) ∧
    countCompletionCalls (extract_workout_perplexity env t).1 = 0 := by
  have h : extract_workout_perplexity env t =
      ([.error "Perplexity API key is missing. Please add it to your .env file."],
        .ok PyVal.none) := by
    simp [extract_workout_perplexity, isEmpty_false_of_ne_nil ht, hkey]
  exact ⟨h, by rw [h]; rfl⟩

/-- C5 witnessed with an absent key. -/
theorem c5_missing_key_stops_before_call_witness :
    extract_workout_perplexity ⟨Option.none, .ok ⟨[]⟩, fun _ => .ok .none⟩
        [⟨"squats"⟩] =
      ([.error "Perplexity API key is missing. Please add it to your .env file."],
        .ok PyVal.none) ∧
    countCompletionCalls
      (extract_workout_perplexity ⟨Option.none, .ok ⟨[]⟩, fun _ => .ok .none⟩
        [⟨"squats"⟩]).1 = 0 :=
  c5_missing_key_stops_before_call
    ⟨Option.none, .ok ⟨[]⟩, fun _ => .ok .none⟩ [⟨"squats"⟩] (by decide) rfl

/-- C7: whenever the extraction stage reaches the completion endpoint,
the user message of the sent exchange embeds the transcript segment
texts, in order, joined by single spaces, inside the fixed prompt
template. -/
theorem c7_prompt_embeds_joined_transcript (env : Env)
    (t : List TranscriptSegment)
    (ht : t ≠ [])
    (hkey : str_opt_truthy env.apiKey = true) :
    ∃ msgs, UIEvent.completionCall msgs ∈ (extract_workout_perplexity env t).1 ∧
      msgs = [⟨"system", systemContent⟩,
        ⟨"user",
          promptHead ++
            String.intercalate " " (t.map TranscriptSegment.text) ++
            promptTail⟩] := by
  refine ⟨build_messages t, ?_, rfl⟩
  simp only [extract_workout_perplexity, isEmpty_false_of_ne_nil ht, hkey,
    Bool.not_true, Bool.false_eq_true, if_false, Bool.not_eq_true', if_neg]
  split
  · simp
  · split
    · simp
    · split
      · simp
      · split <;> simp

/-- C7 witnessed at a concrete two-segment transcript. -/
theorem c7_prompt_embeds_joined_transcript_witness :
    ∃ msgs, UIEvent.completionCall msgs ∈
        (extract_workout_perplexity
          ⟨some "key", .ok ⟨[⟨⟨some "[]"⟩⟩]⟩, fun _ => .ok (.list [])⟩
          [⟨"Do three sets of push-ups, fifteen reps each"⟩,
           ⟨"then four sets of squats, twelve reps"⟩]).1 ∧
      msgs = [⟨"system", systemContent⟩,
        ⟨"user",
          promptHead ++
            String.intercalate " "
              ([⟨"Do three sets of push-ups, fifteen reps each"⟩,
                (⟨"then four sets of squats, twelve reps"⟩ : TranscriptSegment)].map
                TranscriptSegment.text) ++
            promptTail⟩] :=
  c7_prompt_embeds_joined_transcript
    ⟨some "key", .ok ⟨[⟨⟨some "[]"⟩⟩]⟩, fun _ => .ok (.list [])⟩
    [⟨"Do three sets of push-ups, fifteen reps each"⟩,
     ⟨"then four sets of squats, twelve reps"⟩] (by decide) rfl

/-- C2: a run whose completion response body is syntactically invalid
JSON (json.loads raises) surfaces exactly one user-visible error message
and offers no download artifacts. -/
theorem c2_invalid_json_one_error_no_artifacts (w : World) (vid : String)
    (ts : List TranscriptSegment) (body : String)
    (hurl : w.urlInput ≠ "")
    (hvid : w.videoIdResult = .ok vid) (hvid2 : vid ≠ "")
    (htr : get_transcript w.listing =
      ([.transcriptListCall, .transcriptFetchCall], some ts))
    (hts : ts ≠ [])
    (hkey : str_opt_truthy w.env.apiKey = true)
    (hresp : w.env.completionResult = .ok ⟨[⟨⟨some body⟩⟩]⟩)
    (hparse : w.env.jsonLoads body = .error ()) :
    countErrors (runPipeline w).1 = 1 ∧
    countDownloads (runPipeline w).1 = 0 := by
  rw [runPipeline_resolved w vid hurl hvid hvid2,
    transcript_and_extract_run w ts _ _ htr hts
      (extract_parse_err w.env ts body hts hkey hresp hparse),
    renderWorkout_none]
  constructor <;>
    simp [countErrors, countDownloads, List.countP_append, List.countP_cons,
      UIEvent.isError, UIEvent.isDownload]

/-- The concrete world of the C2 witness: a well-formed run whose
completion body fails to parse as JSON. -/
def c2World : World :=
  ⟨"https://www.youtube.com/watch?v=abc", .ok "abc",
   .ok [⟨"English", "en", false, [⟨"three sets of squats"⟩]⟩],
   ⟨some "key", .ok ⟨[⟨⟨some "not json"⟩⟩]⟩, fun _ => .error ()⟩⟩

/-- C2 witnessed at the concrete invalid-JSON run. -/
theorem c2_invalid_json_one_error_no_artifacts_witness :
    countErrors (runPipeline c2World).1 = 1 ∧
    countDownloads (runPipeline c2World).1 = 0 :=
  c2_invalid_json_one_error_no_artifacts c2World "abc"
    [⟨"three sets of squats"⟩] "not json"
    (by decide) rfl (by decide) rfl (by decide) rfl rfl rfl

/-- C4: when the track list is empty, get_transcript returns None, and
the whole run issues no request to the completion endpoint. -/
theorem c4_zero_tracks_no_completion_call (w : World) (vid : String)
    (hurl : w.urlInput ≠ "")
    (hvid : w.videoIdResult = .ok vid) (hvid2 : vid ≠ "")
    (hl : w.listing = .ok []) :
    (get_transcript w.listing).2 = Option.none ∧
    countCompletionCalls (runPipeline w).1 = 0 := by
  have hg : get_transcript w.listing =
      ([.transcriptListCall,
        .error "Error getting transcript: list index out of range"],
        Option.none) := by
    rw [hl]; rfl
  refine ⟨by rw [hg], ?_⟩
  rw [runPipeline_resolved w vid hurl hvid hvid2]
  simp [transcript_and_extract, hg, countCompletionCalls, List.countP_append,
    List.countP_cons, UIEvent.isCompletionCall]

/-- C4 witnessed at a run with zero available tracks. -/
theorem c4_zero_tracks_no_completion_call_witness :
    (get_transcript
        (⟨"url", .ok "abc", .ok [],
          ⟨some "key", .ok ⟨[]⟩, fun _ => .ok .none⟩⟩ : World).listing).2 =
      Option.none ∧
    countCompletionCalls
      (runPipeline
        ⟨"url", .ok "abc", .ok [],
          ⟨some "key", .ok ⟨[]⟩, fun _ => .ok .none⟩⟩).1 = 0 :=
  c4_zero_tracks_no_completion_call
    ⟨"url", .ok "abc", .ok [], ⟨some "key", .ok ⟨[]⟩, fun _ => .ok .none⟩⟩
    "abc" (by decide) rfl (by decide) rfl

/-- C8: a run whose completion body parses to a falsy value (for
instance the empty array) surfaces exactly one warning, no error, and
offers no download artifacts. -/
theorem c8_falsy_result_warning_not_error (w : World) (vid : String)
    (ts : List TranscriptSegment) (body : String) (v : PyVal)
    (hurl : w.urlInput ≠ "")
    (hvid : w.videoIdResult = .ok vid) (hvid2 : vid ≠ "")
    (htr : get_transcript w.listing =
      ([.transcriptListCall, .transcriptFetchCall], some ts))
    (hts : ts ≠ [])
    (hkey : str_opt_truthy w.env.apiKey = true)
    (hresp : w.env.completionResult = .ok ⟨[⟨⟨some body⟩⟩]⟩)
    (hparse : w.env.jsonLoads body = .ok v)
    (hfalsy : v.truthy = false) :
    countWarnings (runPipeline w).1 = 1 ∧
    countErrors (runPipeline w).1 = 0 ∧
    countDownloads (runPipeline w).1 = 0 := by
  have hr : renderWorkout v =
      ([.warning "Could not extract workout plan from this video."], .ok ()) := by
    simp [renderWorkout, hfalsy]
  rw [runPipeline_resolved w vid hurl hvid hvid2,
    transcript_and_extract_run w ts _ _ htr hts
      (extract_parse_ok w.env ts body v hts hkey hresp hparse),
    hr]
  refine ⟨?_, ?_, ?_⟩ <;>
    simp [countErrors, countWarnings, countDownloads, List.countP_append,
      List.countP_cons, UIEvent.isError, UIEvent.isWarning, UIEvent.isDownload]

/-- The concrete world of the C8 witness: a well-formed run whose
completion body is the empty JSON array. -/
def c8World : World :=
  ⟨"https://www.youtube.com/watch?v=abc", .ok "abc",
   .ok [⟨"English", "en", false, [⟨"just talking"⟩]⟩],
   ⟨some "key", .ok ⟨[⟨⟨some "[]"⟩⟩]⟩, fun _ => .ok (.list [])⟩⟩

/-- C8 witnessed at the empty-array run. -/
theorem c8_falsy_result_warning_not_error_witness :
    countWarnings (runPipeline c8World).1 = 1 ∧
    countErrors (runPipeline c8World).1 = 0 ∧
    countDownloads (runPipeline c8World).1 = 0 :=
  c8_falsy_result_warning_not_error c8World "abc" [⟨"just talking"⟩] "[]"
    (.list []) (by decide) rfl (by decide) rfl (by decide) rfl rfl rfl rfl

/-- C9: once the id resolves to a truthy value, the handler emits the
Video subheader and the embedded-player markup as the first two events
of the trace — in particular before any transcript-provider interaction
and regardless of how the rest of the run fares — and that markup wraps
an iframe at the standard embed URL for the id. -/
theorem c9_embed_rendered_first (w : World) (vid : String)
    (hurl : w.urlInput ≠ "")
    (hvid : w.videoIdResult = .ok vid) (hvid2 : vid ≠ "") :
    (∃ rest, (runPipeline w).1 =
      [.subheader "Video", .markdown (embed_youtube_video vid)] ++ rest) ∧
    (∃ a b, embed_youtube_video vid =
      a ++ ("https://www.youtube.com/embed/" ++ vid) ++ b) := by
  refine ⟨⟨(transcript_and_extract w).1, ?_⟩, embedHtmlHead, embedHtmlTail, ?_⟩
  · rw [runPipeline_resolved w vid hurl hvid hvid2]
  · simp [embed_youtube_video, embedUrlBase, String.append_assoc]

/-- C9 witnessed at a run whose transcript fetch fails: the embed markup
is still the second trace event. -/
theorem c9_embed_rendered_first_witness :
    (∃ rest, (runPipeline
        ⟨"url", .ok "dQw4w9WgXcQ", .error "TranscriptsDisabled",
          ⟨Option.none, .ok ⟨[]⟩, fun _ => .ok .none⟩⟩).1 =
      [.subheader "Video",
        .markdown (embed_youtube_video "dQw4w9WgXcQ")] ++ rest) ∧
    (∃ a b, embed_youtube_video "dQw4w9WgXcQ" =
      a ++ ("https://www.youtube.com/embed/" ++ "dQw4w9WgXcQ") ++ b) :=
  c9_embed_rendered_first
    ⟨"url", .ok "dQw4w9WgXcQ", .error "TranscriptsDisabled",
      ⟨Option.none, .ok ⟨[]⟩, fun _ => .ok .none⟩⟩
    "dQw4w9WgXcQ" (by decide) rfl (by decide)

/-- The concrete world of the C10 counterexample: the completion body is
the valid JSON object text, parsed to the empty dict. -/
def c10World : World :=
  ⟨"https://www.youtube.com/watch?v=abc", .ok "abc",
   .ok [⟨"English", "en", false, [⟨"hi there"⟩]⟩],
   ⟨some "key", .ok ⟨[⟨⟨some "\x7b\x7d"⟩⟩]⟩, fun _ => .ok (.dict [])⟩⟩

/-- C10 counterexample: the body is a valid JSON object, json.loads
succeeds and its value is returned verbatim as a success — yet the run
never reaches the rendering stage: the empty dict is falsy, so the
could-not-extract warning shows instead and nothing is rendered or
offered. -/
theorem c10_valid_object_not_rendered :
    (extract_workout_perplexity c10World.env [⟨"hi there"⟩]).2 =
      .ok (.dict []) ∧
    UIEvent.warning "Could not extract workout plan from this video." ∈
      (runPipeline c10World).1 ∧
    UIEvent.subheader "Extracted Workout Plan" ∉ (runPipeline c10World).1 ∧
    countDownloads (runPipeline c10World).1 = 0 := by
  have hex := extract_parse_ok c10World.env [⟨"hi there"⟩] "\x7b\x7d"
    (.dict []) (by decide) rfl rfl rfl
  have h := runPipeline_resolved c10World "abc" (by decide) rfl (by decide)
  rw [transcript_and_extract_run c10World [⟨"hi there"⟩] _ _ rfl (by decide) hex] at h
  have hr : renderWorkout (.dict []) =
      ([.warning "Could not extract workout plan from this video."], .ok ()) := rfl
  rw [hr] at h
  refine ⟨by rw [hex], ?_, ?_, ?_⟩
  · rw [h]; simp
  · rw [h]; simp
  · rw [h]
    simp [countDownloads, List.countP_append, List.countP_cons, UIEvent.isDownload]

/-- C10 amended: parsing is treated as failed only when json.loads
raises — any valid JSON value is returned verbatim as a success with no
error shown and no shape validation; but it reaches the rendering stage
only when it is truthy, while a falsy parsed value (empty array or
object, 0, empty string, null, false) takes the warning branch. -/
theorem c10_truthiness_gates_rendering (w : World) (vid : String)
    (ts : List TranscriptSegment) (body : String) (v : PyVal)
    (hurl : w.urlInput ≠ "")
    (hvid : w.videoIdResult = .ok vid) (hvid2 : vid ≠ "")
    (htr : get_transcript w.listing =
      ([.transcriptListCall, .transcriptFetchCall], some ts))
    (hts : ts ≠ [])
    (hkey : str_opt_truthy w.env.apiKey = true)
    (hresp : w.env.completionResult = .ok ⟨[⟨⟨some body⟩⟩]⟩)
    (hparse : w.env.jsonLoads body = .ok v) :
    (extract_workout_perplexity w.env ts).2 = .ok v ∧
    countErrors (extract_workout_perplexity w.env ts).1 = 0 ∧
    (v.truthy = true →
      UIEvent.subheader "Extracted Workout Plan" ∈ (runPipeline w).1) ∧
    (v.truthy = false →
      UIEvent.warning "Could not extract workout plan from this video." ∈
        (runPipeline w).1) := by
  have hex := extract_parse_ok w.env ts body v hts hkey hresp hparse
  have h := runPipeline_resolved w vid hurl hvid hvid2
  rw [transcript_and_extract_run w ts _ _ htr hts hex] at h
  refine ⟨by rw [hex], ?_, ?_, ?_⟩
  · rw [hex]
    simp [countErrors, List.countP_cons, UIEvent.isError]
  · intro htruthy
    rw [h]
    rcases hdf : pd_DataFrame v with e | df <;>
      simp [renderWorkout, htruthy, hdf]
  · intro hfalsy
    rw [h]
    simp [renderWorkout, hfalsy]

/-- The concrete world of the C10 amended witness: the body parses to
the (truthy, non-array) JSON number 5 and is handed to rendering with no
shape validation. -/
def c10TruthyWorld : World :=
  ⟨"https://www.youtube.com/watch?v=abc", .ok "abc",
   .ok [⟨"English", "en", false, [⟨"hi there"⟩]⟩],
   ⟨some "key", .ok ⟨[⟨⟨some "5"⟩⟩]⟩, fun _ => .ok (.int 5)⟩⟩

/-- C10 amended, witnessed at the truthy non-array value 5. -/
theorem c10_truthiness_gates_rendering_witness :
    (extract_workout_perplexity c10TruthyWorld.env [⟨"hi there"⟩]).2 =
      .ok (.int 5) ∧
    UIEvent.subheader "Extracted Workout Plan" ∈
      (runPipeline c10TruthyWorld).1 := by
  have h := c10_truthiness_gates_rendering c10TruthyWorld "abc" [⟨"hi there"⟩]
    "5" (.int 5) (by decide) rfl (by decide) rfl (by decide) rfl rfl rfl
  exact ⟨h.1, h.2.2.1 rfl⟩

lemma recordFields_toPyVal (r : ExerciseRecord) :
    recordFields r.toPyVal =
      some (["exercise", "sets", "reps"],
        [PyVal.str r.exercise, PyVal.int r.sets, PyVal.int r.reps]) := rfl

lemma all_recordKeys (rs : List ExerciseRecord) :
    ((rs.map ExerciseRecord.toPyVal).all
      (fun u => ((recordFields u).map Prod.fst) ==
        some ["exercise", "sets", "reps"])) = true := by
  induction rs with
  | nil => rfl
  | cons r rs ih =>
      rw [List.map_cons, List.all_cons, ih, Bool.and_true]
      rfl

lemma rows_toPyVal (rs : List ExerciseRecord) :
    (rs.map ExerciseRecord.toPyVal).map
        (fun u => ((recordFields u).map Prod.snd).getD []) =
      rs.map (fun x => [PyVal.str x.exercise, PyVal.int x.sets, PyVal.int x.reps]) := by
  induction rs with
  | nil => rfl
  | cons r rs ih =>
      simp only [List.map_cons]
      rw [ih]
      rfl

lemma pd_DataFrame_records (r0 : ExerciseRecord) (rs : List ExerciseRecord) :
    pd_DataFrame (.list ((r0 :: rs).map ExerciseRecord.toPyVal)) =
      .ok ⟨["exercise", "sets", "reps"],
        (r0 :: rs).map
          (fun x => [PyVal.str x.exercise, PyVal.int x.sets, PyVal.int x.reps])⟩ := by
  have hall := all_recordKeys (r0 :: rs)
  rw [List.map_cons] at hall ⊢
  simp only [pd_DataFrame, recordFields_toPyVal, hall, if_true]
  rw [← List.map_cons ExerciseRecord.toPyVal r0 rs, rows_toPyVal]

lemma csv_body_records (rs : List ExerciseRecord)
    (h : ∀ r ∈ rs, needsQuoting r.exercise = false) :
    concatStrings
        ((rs.map (fun x => [PyVal.str x.exercise, PyVal.int x.sets, PyVal.int x.reps])).map
          (fun row => joinComma (row.map cellToCsv) ++ "\n")) =
      concatStrings (rs.map (fun r =>
        r.exercise ++ "," ++ toString r.sets ++ "," ++ toString r.reps ++ "\n")) := by
  induction rs with
  | nil => rfl
  | cons r rs ih =>
      have hr : needsQuoting r.exercise = false := h r (List.mem_cons_self r rs)
      have ih2 := ih (fun x hx => h x (List.mem_cons_of_mem r hx))
      simp only [List.map_cons, concatStrings, ih2, joinComma, cellToCsv, csvQuote,
        hr, Bool.false_eq_true, if_false, String.append_assoc]

lemma to_csv_records (rs : List ExerciseRecord)
    (h : ∀ r ∈ rs, needsQuoting r.exercise = false) :
    to_csv ⟨["exercise", "sets", "reps"],
        rs.map (fun x => [PyVal.str x.exercise, PyVal.int x.sets, PyVal.int x.reps])⟩ =
      "exercise,sets,reps" ++ "\n" ++
        concatStrings (rs.map (fun r =>
          r.exercise ++ "," ++ toString r.sets ++ "," ++ toString r.reps ++ "\n")) := by
  have hh : joinComma (["exercise", "sets", "reps"].map csvQuote) =
      "exercise,sets,reps" := by decide
  show joinComma (["exercise", "sets", "reps"].map csvQuote) ++ "\n" ++
      concatStrings
        ((rs.map (fun x => [PyVal.str x.exercise, PyVal.int x.sets, PyVal.int x.reps])).map
          (fun row => joinComma (row.map cellToCsv) ++ "\n")) = _
  rw [hh, csv_body_records rs h]

/-- C6: a run whose completion body parses to a non-empty array in the
ExerciseRecord shape renders the table and offers exactly the two
artifacts: a CSV made of the exercise,sets,reps header line followed by
one line per array element whose three fields are the exercise, sets
and reps of that element in that order with no index column, and the
2-space-indented JSON serialization of the same parsed array. -/
theorem c6_export_matches_records (w : World) (vid : String)
    (ts : List TranscriptSegment) (body : String)
    (r0 : ExerciseRecord) (rs : List ExerciseRecord)
    (hurl : w.urlInput ≠ "")
    (hvid : w.videoIdResult = .ok vid) (hvid2 : vid ≠ "")
    (htr : get_transcript w.listing =
      ([.transcriptListCall, .transcriptFetchCall], some ts))
    (hts : ts ≠ [])
    (hkey : str_opt_truthy w.env.apiKey = true)
    (hresp : w.env.completionResult = .ok ⟨[⟨⟨some body⟩⟩]⟩)
    (hparse : w.env.jsonLoads body =
      .ok (.list ((r0 :: rs).map ExerciseRecord.toPyVal)))
    (hq : ∀ r ∈ r0 :: rs, needsQuoting r.exercise = false) :
    (runPipeline w).1 =
      [.subheader "Video", .markdown (embed_youtube_video vid),
       .transcriptListCall, .transcriptFetchCall,
       .completionCall (build_messages ts),
       .subheader "Extracted Workout Plan",
       .dataframe ⟨["exercise", "sets", "reps"],
         (r0 :: rs).map
           (fun x => [PyVal.str x.exercise, PyVal.int x.sets, PyVal.int x.reps])⟩,
       .downloadCSV ("exercise,sets,reps" ++ "\n" ++
         concatStrings ((r0 :: rs).map (fun r =>
           r.exercise ++ "," ++ toString r.sets ++ "," ++ toString r.reps ++ "\n"))),
       .downloadJSON (dumpVal 0 (.list ((r0 :: rs).map ExerciseRecord.toPyVal)))] := by
  have hex := extract_parse_ok w.env ts body _ hts hkey hresp hparse
  have htruthy : (PyVal.list ((r0 :: rs).map ExerciseRecord.toPyVal)).truthy = true := by
    simp [PyVal.truthy]
  have hr : renderWorkout (.list ((r0 :: rs).map ExerciseRecord.toPyVal)) =
      ([.subheader "Extracted Workout Plan",
        .dataframe ⟨["exercise", "sets", "reps"],
          (r0 :: rs).map
            (fun x => [PyVal.str x.exercise, PyVal.int x.sets, PyVal.int x.reps])⟩,
        .downloadCSV ("exercise,sets,reps" ++ "\n" ++
          concatStrings ((r0 :: rs).map (fun r =>
            r.exercise ++ "," ++ toString r.sets ++ "," ++ toString r.reps ++ "\n"))),
        .downloadJSON (dumpVal 0 (.list ((r0 :: rs).map ExerciseRecord.toPyVal)))],
        .ok ()) := by
    rw [renderWorkout, htruthy]
    simp only [pd_DataFrame_records, if_true, to_csv_records (r0 :: rs) hq]
  rw [runPipeline_resolved w vid hurl hvid hvid2,
    transcript_and_extract_run w ts _ _ htr hts hex, hr]
  rfl

/-- The concrete world of the C6 witness: the spec scenario with the
Push-ups and Squats records. -/
def c6World : World :=
  ⟨"https://www.youtube.com/watch?v=abc", .ok "abc",
   .ok [⟨"English", "en", false,
     [⟨"Do three sets of push-ups, fifteen reps each"⟩,
      ⟨"then four sets of squats, twelve reps"⟩]⟩],
   ⟨some "key",
    .ok ⟨[⟨⟨some "[\x7b\"exercise\": \"Push-ups\", \"sets\": 3, \"reps\": 15\x7d, \x7b\"exercise\": \"Squats\", \"sets\": 4, \"reps\": 12\x7d]"⟩⟩]⟩,
    fun _ => .ok (.list
      [ExerciseRecord.toPyVal ⟨"Push-ups", 3, 15⟩,
       ExerciseRecord.toPyVal ⟨"Squats", 4, 12⟩])⟩⟩

/-- C6 witnessed at the spec scenario: the offered CSV is exactly the
header plus the two positional rows with no index column, and the
offered JSON is exactly the 2-space-indented serialization of the parsed
array. -/
theorem c6_export_matches_records_witness :
    UIEvent.downloadCSV "exercise,sets,reps\nPush-ups,3,15\nSquats,4,12\n" ∈
      (runPipeline c6World).1 ∧
    UIEvent.downloadJSON "[\n  \x7b\n    \"exercise\": \"Push-ups\",\n    \"sets\": 3,\n    \"reps\": 15\n  \x7d,\n  \x7b\n    \"exercise\": \"Squats\",\n    \"sets\": 4,\n    \"reps\": 12\n  \x7d\n]" ∈
      (runPipeline c6World).1 := by
  have h := c6_export_matches_records c6World "abc"
    [⟨"Do three sets of push-ups, fifteen reps each"⟩,
     ⟨"then four sets of squats, twelve reps"⟩]
    "[\x7b\"exercise\": \"Push-ups\", \"sets\": 3, \"reps\": 15\x7d, \x7b\"exercise\": \"Squats\", \"sets\": 4, \"reps\": 12\x7d]"
    ⟨"Push-ups", 3, 15⟩ [⟨"Squats", 4, 12⟩]
    (by decide) rfl (by decide) rfl (by decide) rfl rfl rfl (by decide)
  have e1 : "exercise,sets,reps" ++ "\n" ++
      concatStrings
        (((⟨"Push-ups", 3, 15⟩ : ExerciseRecord) :: [⟨"Squats", 4, 12⟩]).map
          (fun r =>
            r.exercise ++ "," ++ toString r.sets ++ "," ++ toString r.reps ++ "\n")) =
      "exercise,sets,reps\nPush-ups,3,15\nSquats,4,12\n" := by decide
  have e2 : dumpVal 0
      (.list (((⟨"Push-ups", 3, 15⟩ : ExerciseRecord) :: [⟨"Squats", 4, 12⟩]).map
        ExerciseRecord.toPyVal)) =
      "[\n  \x7b\n    \"exercise\": \"Push-ups\",\n    \"sets\": 3,\n    \"reps\": 15\n  \x7d,\n  \x7b\n    \"exercise\": \"Squats\",\n    \"sets\": 4,\n    \"reps\": 12\n  \x7d\n]" := by
    simp only [List.map_cons, List.map_nil, ExerciseRecord.toPyVal, dumpVal,
      dumpItems, dumpPairs, indentPad]
    decide
  rw [h, ← e1, ← e2]
  exact ⟨by simp, by simp⟩
